import Mathlib

/-!
Verification of the natural-language file-resolution workflow of
`src/commands/template.py` (the `edit_file` command), as a shallow embedding.

Dynamic Python values that flow through `edit_file` are modelled by `PyVal`
(numbers as rationals, strings, and `None`); collaborator calls
(`get_current_workspace`, `get_workspaces`, `_get_recent_files`,
`get_codebase_structure`, `get_framework_specific_prompt`, `json_prompt`,
`typer.prompt`) are modelled as data/functions in an environment record `Env`.
Observable behaviour is a returned message plus a trace of `Event`s
(stdout writes, the service call, cache writes, editor launches).
Python exceptions are modelled with `Except Unit`.
-/

instance {ε α : Type} [DecidableEq ε] [DecidableEq α] : DecidableEq (Except ε α) := fun x y =>
  match x, y with
  | Except.ok a, Except.ok b =>
    match decEq a b with
    | isTrue h => isTrue (h ▸ rfl)
    | isFalse h => isFalse (fun hh => h (Except.ok.inj hh))
  | Except.error a, Except.error b =>
    match decEq a b with
    | isTrue h => isTrue (h ▸ rfl)
    | isFalse h => isFalse (fun hh => h (Except.error.inj hh))
  | Except.ok _, Except.error _ => isFalse (fun hh => Except.noConfusion hh)
  | Except.error _, Except.ok _ => isFalse (fun hh => Except.noConfusion hh)

/-- A Python value as it can appear in the fields the code reads from the
matching-service JSON: a number (modelled as a rational; the float literals
involved, `0.8` and `0.9`, compare identically under this model), a string,
or `None`. Other JSON shapes (lists, nested objects, booleans) are never
distinguished by the code paths under verification, so they are omitted. -/
inductive PyVal where
  | num (q : ℚ)
  | str (s : String)
  | null
deriving DecidableEq

/-- Python `a < b` restricted to the value shapes of `PyVal`: numbers compare
with numbers, strings with strings, and any other combination raises
`TypeError` (modelled as `Except.error ()`). -/
def pyLt : PyVal → PyVal → Except Unit Bool
  | PyVal.num a, PyVal.num b => Except.ok (decide (a < b))
  | PyVal.str a, PyVal.str b => Except.ok (decide (a < b))
  | _, _ => Except.error ()

/-- Python `v > q` against a float literal `q` (source line 213:
`matches[0]["confidence_score"] > 0.9`): defined for numbers, raises
`TypeError` otherwise. -/
def pyGtFloat (v : PyVal) (q : ℚ) : Except Unit Bool :=
  match v with
  | PyVal.num a => Except.ok (decide (q < a))
  | _ => Except.error ()

/-- Deterministic rendering of a rational, standing in for Python float
`repr`. It is only reachable when the service returns a non-string
`file_path`/`file_type`; no claim depends on the exact text. -/
def ratRepr (q : ℚ) : String :=
  if q.den = 1 then toString q.num ++ ".0"
  else toString q.num ++ "/" ++ toString q.den

/-- Python `str()` on a `PyVal`, as used inside f-strings. -/
def pyStr : PyVal → String
  | PyVal.str s => s
  | PyVal.num q => ratRepr q
  | PyVal.null => "None"

/-- Python `f"...{x}..."` rendering of a value that is either a string or
`None` (used for the workspace variables at source lines 142, 145, 153). -/
def pyShowOpt : Option String → String
  | Option.none => "None"
  | Option.some s => s

/-- Helper for `pyInt`: consumes the remaining digit characters of a Python
integer literal, allowing single underscores between digits (as `int()`
does). `acc` is the value of the digits consumed so far. -/
def parseDigitsAux : Nat → List Char → Option Nat
  | acc, [] => Option.some acc
  | acc, '_' :: rest =>
    match rest with
    | c :: cs =>
      if c.isDigit then parseDigitsAux (acc * 10 + (c.toNat - 48)) cs
      else Option.none
    | [] => Option.none
  | acc, c :: cs =>
    if c.isDigit then parseDigitsAux (acc * 10 + (c.toNat - 48)) cs
    else Option.none

/-- ASCII whitespace stripped by Python `int()` (and `str.strip()`). -/
def isPySpace (c : Char) : Bool :=
  c = ' ' || c = '\t' || c = '\n' || c = '\r' || c = '\x0b' || c = '\x0c'

/-- The character list of `s` with surrounding whitespace stripped
(list-based counterpart of `str.strip()`). -/
def stripChars (s : String) : List Char :=
  ((s.toList.dropWhile isPySpace).reverse.dropWhile isPySpace).reverse

/-- Python `int(s)` on a user-supplied string: optional surrounding
whitespace, an optional sign, then a non-empty digit sequence (single
underscores permitted between digits). Anything else raises `ValueError`.
(Python also accepts non-ASCII decimal digits; immaterial here.) -/
def pyInt (s : String) : Except Unit Int :=
  match stripChars s with
  | '-' :: c :: cs =>
    if c.isDigit then
      match parseDigitsAux (c.toNat - 48) cs with
      | Option.some n => Except.ok (-(n : Int))
      | Option.none => Except.error ()
    else Except.error ()
  | '+' :: c :: cs =>
    if c.isDigit then
      match parseDigitsAux (c.toNat - 48) cs with
      | Option.some n => Except.ok (n : Int)
      | Option.none => Except.error ()
    else Except.error ()
  | c :: cs =>
    if c.isDigit then
      match parseDigitsAux (c.toNat - 48) cs with
      | Option.some n => Except.ok (n : Int)
      | Option.none => Except.error ()
    else Except.error ()
  | [] => Except.error ()

/-- Python list indexing `l[i]` with an `Int` index: non-negative indices
must be below the length, negative indices count from the end and must not
go past the front; out of range raises `IndexError`. -/
def pyIndex {α : Type} (l : List α) (i : Int) : Except Unit α :=
  if 0 ≤ i then
    match l.get? i.toNat with
    | Option.some a => Except.ok a
    | Option.none => Except.error ()
  else
    if (-i).toNat ≤ l.length then
      match l.get? (l.length - (-i).toNat) with
      | Option.some a => Except.ok a
      | Option.none => Except.error ()
    else Except.error ()

/-- Whether a string starts with the POSIX separator. -/
def startsWithSlash (s : String) : Bool :=
  match s.toList with
  | '/' :: _ => true
  | _ => false

/-- Whether a string ends with the POSIX separator. -/
def endsWithSlash (s : String) : Bool :=
  match s.toList.getLast? with
  | Option.some '/' => true
  | _ => false

/-- Python `os.path.join(a, b)` for two POSIX path components (source lines
214 and 231): an absolute `b` wins; otherwise `b` is appended to `a` with a
single separator. -/
def osPathJoin (a b : String) : String :=
  if startsWithSlash b then b
  else if a = "" then b
  else if endsWithSlash a then a ++ b
  else a ++ "/" ++ b

/-- One raw candidate record from the matching-service response. The code
reads exactly the keys `"file"`, `"confidence_score"` and `"file_type"`
(source lines 200-202), each possibly absent; other keys are never
consulted, so a record is modelled by these three optional fields. -/
structure RawRecord where
  file? : Option PyVal
  confidence_score? : Option PyVal
  file_type? : Option PyVal
deriving DecidableEq

/-- The matching-service response: the code reads only
`response.get("results", [])` (source line 197), so the response is
modelled by its optional `"results"` list. -/
structure RawResponse where
  results? : Option (List RawRecord)
deriving DecidableEq

/-- A parsed candidate match as built at source lines 198-204: a dict with
the three keys always present. -/
structure Candidate where
  file_path : PyVal
  confidence_score : PyVal
  file_type : PyVal
deriving DecidableEq

/-- The parsing of one raw record (source lines 198-204):
`match.get("file", "")`, `match.get("confidence_score", 0.8)`,
`match.get("file_type", "unknown")`. Total: absent fields fall back to
the defaults, present fields are kept as-is (whatever their type). -/
def parseRecord (r : RawRecord) : Candidate :=
  { file_path := r.file?.getD (PyVal.str "")
  , confidence_score := r.confidence_score?.getD (PyVal.num (mkRat 4 5))
  , file_type := r.file_type?.getD (PyVal.str "unknown") }

/-- Whether a candidate's stored confidence is a number. -/
def scoreIsNum (c : Candidate) : Bool :=
  match c.confidence_score with
  | PyVal.num _ => true
  | _ => false

/-- The numeric value of a candidate's confidence (0 when non-numeric;
only used under `scoreIsNum` hypotheses or for the pure reference sort). -/
def scoreQ (c : Candidate) : ℚ :=
  match c.confidence_score with
  | PyVal.num q => q
  | _ => 0

/-- One insertion step of the sort at source line 207
(`matches.sort(key=lambda x: x.get("confidence_score", 0), reverse=True)`).
CPython's sort is stable and, with `reverse=True`, orders keys descending
using only `<` on keys; it raises `TypeError` when it compares two
incomparable keys. The sort is modelled as a stable descending insertion
sort with the same comparison (`pyLt`); on mutually comparable keys it
computes exactly the unique stable descending order, and it raises
precisely when an incomparable pair is compared. -/
def insertDescM (c : Candidate) : List Candidate → Except Unit (List Candidate)
  | [] => Except.ok [c]
  | x :: xs =>
    match pyLt c.confidence_score x.confidence_score with
    | Except.error _ => Except.error ()
    | Except.ok true =>
      match insertDescM c xs with
      | Except.error _ => Except.error ()
      | Except.ok r => Except.ok (x :: r)
    | Except.ok false => Except.ok (c :: x :: xs)

/-- The sort at source line 207 (see `insertDescM`). -/
def sortByConfidence : List Candidate → Except Unit (List Candidate)
  | [] => Except.ok []
  | c :: cs =>
    match sortByConfidence cs with
    | Except.error _ => Except.error ()
    | Except.ok s => insertDescM c s

/-- The parse-and-rank step (source lines 196-207) applied to the raw
results list: parse each record, then sort by confidence descending. -/
def rankList (raw : List RawRecord) : Except Unit (List Candidate) :=
  sortByConfidence (raw.map parseRecord)

/-- Pure reference insertion (stable, descending by `scoreQ`): an element is
placed before the first element whose key is not strictly greater, so equal
keys keep their original relative order. -/
def insertDesc (c : Candidate) : List Candidate → List Candidate
  | [] => [c]
  | x :: xs =>
    if scoreQ c < scoreQ x then x :: insertDesc c xs
    else c :: x :: xs

/-- Pure reference stable descending sort; `sortByConfidence` agrees with it
whenever every key is numeric (`sortByConfidence_eq_sortDesc`). -/
def sortDesc : List Candidate → List Candidate
  | [] => []
  | c :: cs => insertDesc c (sortDesc cs)

/-- An observable step of `edit_file`: a `print` to stdout, a `typer.echo`,
a `typer.prompt` (blocking read), the single matching-service call
(`json_prompt`), a recent-files cache write (`_cache_recent_file`), an
editor launch (`open_in_editor`), the `os.system("code --goto ...")` launch
of the recent-files branch, or the debug print of the caught exception in
the outer handler (source line 241; the exception text is not modelled). -/
inductive Event where
  | printed (s : String)
  | echoed (s : String)
  | prompted (msg : String)
  | serviceCalled (prompt : String)
  | printedResponse (r : RawResponse)
  | cachedRecent (path : String)
  | openedEditor (path : String)
  | ranSystem (cmd : String)
  | printedExc
deriving DecidableEq

/-- Whether an event is the recent-files cache write. -/
def isCacheEvent : Event → Bool
  | Event.cachedRecent _ => true
  | _ => false

/-- Whether an event is an `open_in_editor` launch. -/
def isEditorEvent : Event → Bool
  | Event.openedEditor _ => true
  | _ => false

/-- Whether an event launches a file in the editor by either mechanism
(`open_in_editor` at lines 217/236, or `os.system("code --goto ...")` at
line 177). -/
def isLaunchEvent : Event → Bool
  | Event.openedEditor _ => true
  | Event.ranSystem _ => true
  | _ => false

/-- Whether an event is the `os.system("code --goto ...")` launch of the
recent-files branch. -/
def isRanEvent : Event → Bool
  | Event.ranSystem _ => true
  | _ => false

/-- Whether an event is an interactive `typer.prompt` call. -/
def isPromptEvent : Event → Bool
  | Event.prompted _ => true
  | _ => false

/-- Whether an event is the matching-service call. -/
def isServiceEvent : Event → Bool
  | Event.serviceCalled _ => true
  | _ => false

/-- Python `format(x, ".2f")` on a non-negative-denominator rational,
computed on numerator and denominator (`⌊100q + 1/2⌋` via integer floor
division). Python formats the underlying double with round-half-even, which
agrees except on values within a double rounding error of a half-cent; no
claim depends on those. -/
def formatFloat2 (q : ℚ) : String :=
  let n : Int := Int.fdiv (200 * q.num + (q.den : Int)) (2 * (q.den : Int))
  let sign := if n < 0 then "-" else ""
  let m := n.natAbs
  sign ++ toString (m / 100) ++ "." ++ (if m % 100 < 10 then "0" else "") ++ toString (m % 100)

/-- ASCII lowercasing, the fragment of Python `str.lower()` that matters for
detecting the token `"recent"` (no non-ASCII character lowers to any of the
letters of `"recent"`). -/
def asciiLower (c : Char) : Char :=
  if 'A' ≤ c && c ≤ 'Z' then Char.ofNat (c.toNat + 32) else c

/-- Whether `needle` occurs as a contiguous run inside the second list. -/
def hasSubstring (needle : List Char) : List Char → Bool
  | [] => decide (needle = [])
  | c :: rest => List.isPrefixOf needle (c :: rest) || hasSubstring needle rest

/-- The routing test at source line 166:
`"recent" in file_description.lower()`. -/
def containsRecent (s : String) : Bool :=
  hasSubstring ("recent".toList) (s.toList.map asciiLower)

/-- One menu line of the disambiguation display (source lines 223-226):
the f-string `f"{i+1}. {file_type} file: {file_path} (confidence: {score:.2f})"`.
The `:.2f` format specifier raises unless the stored confidence is a
number. -/
def menuLine (i : Nat) (c : Candidate) : Except Unit String :=
  match c.confidence_score with
  | PyVal.num q =>
    Except.ok (toString (i + 1) ++ ". " ++ pyStr c.file_type ++ " file: " ++
      pyStr c.file_path ++ " (confidence: " ++ formatFloat2 q ++ ")")
  | _ => Except.error ()

/-- The disambiguation display loop over `matches[:5]` (source lines
222-226): echoes menu lines until done or until a line's formatting raises
(events echoed before the raise are kept). -/
def echoMenu (i : Nat) : List Candidate → List Event × Except Unit Unit
  | [] => ([], Except.ok ())
  | c :: cs =>
    match menuLine i c with
    | Except.error _ => ([], Except.error ())
    | Except.ok s =>
      let p := echoMenu (i + 1) cs
      (Event.echoed s :: p.1, p.2)

/-- The echo lines of the recent-files listing (source lines 171-172):
`enumerate(recent_files[:5])` with `f"{i+1}. {file_path}"`. -/
def recentListEvents (files : List String) : List Event :=
  (files.take 5).enum.map (fun p => Event.echoed (toString (p.1 + 1) ++ ". " ++ p.2))

/-- The recent-files branch (source lines 166-181), given the cached list
returned by `_get_recent_files()` and the user's reply to the prompt.
`ValueError`/`IndexError` from `int(choice)` / `recent_files[int(choice)-1]`
are caught and yield the invalid-selection message; a valid (Python) index
runs `os.system(f"code --goto {selected}")` with no cache write. -/
def recentBranch (files : List String) (choice : String) : String × List Event :=
  let evs0 := [Event.printed ("Handling recent files request")]
  match files with
  | [] => ("========== No recent files found", evs0)
  | _ :: _ =>
    let evs1 := evs0 ++ [Event.echoed ("Recent files:")] ++ recentListEvents files ++
      [Event.prompted ("Which file to open? (number)")]
    match pyInt choice with
    | Except.error _ => ("========== Invalid selection", evs1)
    | Except.ok n =>
      match pyIndex files (n - 1) with
      | Except.error _ => ("========== Invalid selection", evs1)
      | Except.ok sel =>
        ("========== Opened recent file: " ++ sel,
         evs1 ++ [Event.printed ("========== Opening file: " ++ sel),
                  Event.ranSystem ("code --goto " ++ sel)])

/-- The resolution stage (source lines 209-239), applied to the ranked
candidate list: empty list → no-match message; top confidence `> 0.9` →
cache + open directly; otherwise present up to 5 candidates, prompt, and
select `matches[int(choice) - 1]` (note: Python indexing over the FULL
list), caching and opening the selection; `ValueError`/`IndexError` yield
the invalid-selection message; any other exception (non-numeric confidence
compared at line 213, `:.2f` on a non-number, `os.path.join` on a
non-string path) propagates to the outer handler (`Except.error`). -/
def resolveStage (projectRoot choice : String) (ms : List Candidate) :
    List Event × Except Unit String :=
  match ms with
  | [] => ([], Except.ok ("No matching files found"))
  | top :: _ =>
    match pyGtFloat top.confidence_score (mkRat 9 10) with
    | Except.error _ => ([], Except.error ())
    | Except.ok true =>
      match top.file_path with
      | PyVal.str rel =>
        let fp := osPathJoin projectRoot rel
        ([Event.printed ("High confidence match found: " ++ fp),
          Event.cachedRecent fp, Event.openedEditor fp],
         Except.ok ("Opened file: " ++ fp))
      | _ => ([], Except.error ())
    | Except.ok false =>
      let menu := echoMenu 0 (ms.take 5)
      let evs0 := Event.echoed ("Multiple matches found:") :: menu.1
      match menu.2 with
      | Except.error _ => (evs0, Except.error ())
      | Except.ok _ =>
        let evs1 := evs0 ++ [Event.prompted ("Which file to edit? (number)")]
        match pyInt choice with
        | Except.error _ => (evs1, Except.ok ("Invalid selection"))
        | Except.ok n =>
          match pyIndex ms (n - 1) with
          | Except.error _ => (evs1, Except.ok ("Invalid selection"))
          | Except.ok sel =>
            match sel.file_path with
            | PyVal.str rel =>
              let fp := osPathJoin projectRoot rel
              (evs1 ++ [Event.printed ("User selected file: " ++ fp),
                        Event.cachedRecent fp,
                        Event.printed ("Opening file in editor: " ++ fp),
                        Event.openedEditor fp],
               Except.ok ("Opened " ++ pyStr sel.file_type ++ " file: " ++ fp))
            | _ => (evs1, Except.error ())

/-- The environment of one `edit_file` invocation: the CLI arguments plus
the behaviour of every collaborator the command consults. Collaborators are
deterministic data/functions, matching the single-threaded, one-shot use in
the source. `currentWorkspace` is the value of `get_current_workspace()`
(`Option.some ""` and `Option.none` are both falsy at line 147);
`workspaces` maps each configured workspace name to its `"path"` entry (the
config is assumed well-shaped, and a configured entry is assumed truthy;
the `"frameworks"` part is never read by `edit_file`); `defaultRoot` is the
fallback `os.path.dirname(os.path.dirname(os.path.abspath(__file__)))`. -/
structure Env where
  workspaceOpt : Option String
  fileDescription : String
  currentWorkspace : Option String
  workspaces : List (String × String)
  defaultRoot : String
  recentFiles : List String
  getCodebaseStructure : String → String
  getPrompt : Option String → String → String → String
  service : String → Except Unit RawResponse
  userChoice : String

/-- Outcome of the workspace-resolution block (source lines 144-160):
either the early `"Current workspace '...' not found"` return, or the
project root to use. -/
inductive WsOutcome where
  | notFound (name : String)
  | root (path : String)
deriving DecidableEq

/-- The workspace-resolution block (source lines 144-160). Note that the
`workspace` PARAMETER has already been overwritten by
`get_current_workspace()` at line 144, so only `cw` matters here. -/
def workspaceStage (cw : Option String) (wss : List (String × String))
    (defaultRoot : String) : WsOutcome :=
  match cw with
  | Option.some w =>
    if w = "" then WsOutcome.root defaultRoot
    else
      match List.lookup w wss with
      | Option.some p => WsOutcome.root p
      | Option.none => WsOutcome.notFound w
  | Option.none => WsOutcome.root defaultRoot

/-- The main (non-recent) branch (source lines 183-239): build the prompt,
call the matching service once (an exception there propagates to the outer
handler), print the response, parse-and-rank, then resolve. -/
def mainBranch (env : Env) (projectRoot : String) : List Event × Except Unit String :=
  let cs := env.getCodebaseStructure projectRoot
  let prompt := env.getPrompt env.currentWorkspace cs env.fileDescription
  let evs := [Event.printed ("========== Codebase structure: " ++ cs),
              Event.printed ("DeepSeek prompt: " ++ prompt),
              Event.serviceCalled prompt]
  match env.service prompt with
  | Except.error _ => (evs, Except.error ())
  | Except.ok resp =>
    let evs2 := evs ++ [Event.printedResponse resp]
    match rankList ((resp.results?).getD []) with
    | Except.error _ => (evs2, Except.error ())
    | Except.ok ms =>
      let p := resolveStage projectRoot env.userChoice ms
      (evs2 ++ p.1, p.2)

/-- Source lines 162-239 given the resolved project root: the two progress
prints, then the recent-files shortcut test at line 166, branching to
`recentBranch` or `mainBranch`. -/
def branchStage (env : Env) (projectRoot : String) : List Event × Except Unit String :=
  let evs := [Event.printed ("DEBUG: Project root set to: " ++ projectRoot),
              Event.printed ("========== Starting edit_file with: " ++ env.fileDescription)]
  if containsRecent env.fileDescription then
    let p := recentBranch env.recentFiles env.userChoice
    (evs ++ p.2, Except.ok p.1)
  else
    let p := mainBranch env projectRoot
    (evs ++ p.1, p.2)

/-- Everything after the first two prints of `edit_file` (source lines
143-239). This part of the computation never reads the `--workspace`
option: the parameter was overwritten at line 144. -/
def afterOptPrint (env : Env) : List Event × Except Unit String :=
  let evs := [Event.printed ("DEBUG: Current workspace: " ++ pyShowOpt env.currentWorkspace)]
  match workspaceStage env.currentWorkspace env.workspaces env.defaultRoot with
  | WsOutcome.notFound w =>
    (evs ++ [Event.printed ("DEBUG: Current workspace '" ++ w ++ "' not found in config")],
     Except.ok ("Current workspace '" ++ w ++ "' not found"))
  | WsOutcome.root pr =>
    let p := branchStage env pr
    (evs ++ p.1, p.2)

/-- The body of `edit_file` up to (but not including) the outer exception
handler (source lines 139-239): the initial debug prints — the second one
is the ONLY read of the `--workspace` option — followed by `afterOptPrint`. -/
def editFileCore (env : Env) : List Event × Except Unit String :=
  (Event.printed ("DEBUG: Starting edit_file command") ::
   Event.printed ("DEBUG: Getting workspace config for '" ++ pyShowOpt env.workspaceOpt ++ "'") ::
   (afterOptPrint env).1,
   (afterOptPrint env).2)

/-- The whole `edit_file` command (source lines 135-242): the core body,
with the outer `except Exception` handler (lines 240-242) converting any
uncaught exception into the debug print and the generic failure message.
The function is total: no exception escapes to the caller. -/
def edit_file (env : Env) : String × List Event :=
  match editFileCore env with
  | (evs, Except.ok m) => (m, evs)
  | (evs, Except.error _) => ("Error: Could not edit file", evs ++ [Event.printedExc])

/-- Whether a run outcome (events, result) is an auto-open: some
`open_in_editor` launch happened and no interactive prompt was ever
issued. -/
def autoOpenedB (p : List Event × Except Unit String) : Bool :=
  p.1.any isEditorEvent && !(p.1.any isPromptEvent)

/-- Over a trace restricted to cache writes and `open_in_editor` launches,
checks that the events come as adjacent pairs: a cache write of a path
immediately followed by the launch of that same path. -/
def isPaired : List Event → Bool
  | [] => true
  | Event.cachedRecent p :: Event.openedEditor q :: rest => p == q && isPaired rest
  | _ => false

/-- A neutral collaborator environment: no configured workspace, empty
recent-files cache, a service returning a response without a `"results"`
key. Concrete scenarios below override individual fields. -/
def baseEnv : Env :=
  { workspaceOpt := Option.none
  , fileDescription := ""
  , currentWorkspace := Option.none
  , workspaces := []
  , defaultRoot := "/proj"
  , recentFiles := []
  , getCodebaseStructure := fun _ => "cs"
  , getPrompt := fun _ _ _ => "PROMPT"
  , service := fun _ => Except.ok ⟨Option.none⟩
  , userChoice := "" }

/-- Scenario: the service returns two candidates scored `0.5`, the user
replies `"0"` to the disambiguation prompt. -/
def envC3 : Env :=
  { baseEnv with
    fileDescription := "edit the auth file"
  , service := fun _ => Except.ok ⟨Option.some
      [ ⟨Option.some (PyVal.str "a.py"), Option.some (PyVal.num (mkRat 1 2)),
         Option.some (PyVal.str "module")⟩
      , ⟨Option.some (PyVal.str "b.py"), Option.some (PyVal.num (mkRat 1 2)),
         Option.some (PyVal.str "module")⟩ ]⟩
  , userChoice := "0" }

/-- Scenario: the matching-service call raises. -/
def envC4w : Env :=
  { baseEnv with
    fileDescription := "edit the config loader"
  , service := fun _ => Except.error () }

/-- Scenario: the service response has no `"results"` key. -/
def envC6w : Env :=
  { baseEnv with fileDescription := "edit the config loader" }

/-- Scenario: a description containing `"RECENT"`, two cached recent files,
the user picks number 1. -/
def envC7w : Env :=
  { baseEnv with
    fileDescription := "show me RECENT files"
  , recentFiles := ["x.py", "y.py"]
  , userChoice := "1" }

/-- Scenario: the recent-files shortcut with one cached file and a valid
choice; the shortcut launches the editor with no cache write. -/
def envC8x : Env :=
  { baseEnv with
    fileDescription := "recent"
  , recentFiles := ["x.py"]
  , userChoice := "1" }

/-- Scenario: a single high-confidence candidate, auto-opened. -/
def envC8w : Env :=
  { baseEnv with
    fileDescription := "edit the auth middleware"
  , service := fun _ => Except.ok ⟨Option.some
      [ ⟨Option.some (PyVal.str "a.py"), Option.some (PyVal.num (mkRat 95 100)),
         Option.some (PyVal.str "module")⟩ ]⟩ }

/-- Scenario: the `--workspace` option names a workspace (`"ghost"`) absent
from the configuration, while the CURRENT workspace (`"main"`) is
configured; the description routes to the recent-files shortcut with an
empty cache so the run terminates quickly. -/
def envC9x : Env :=
  { baseEnv with
    workspaceOpt := Option.some "ghost"
  , currentWorkspace := Option.some "main"
  , workspaces := [("main", "/m")]
  , fileDescription := "recent" }

/-- Scenario: the current workspace (`"gone"`) is set but not present in
the workspace configuration. -/
def envC9w : Env :=
  { baseEnv with
    currentWorkspace := Option.some "gone"
  , fileDescription := "recent" }

/-- Scenario for option-insensitivity: a run with `--workspace alpha`. -/
def envC10a : Env :=
  { baseEnv with
    workspaceOpt := Option.some "alpha"
  , fileDescription := "recent" }

/-- The same run with the `--workspace` option omitted. -/
def envC10b : Env :=
  { envC10a with workspaceOpt := Option.none }

/-- Constructor-level evaluation lemmas for the event predicates, so
that rewriting never needs to unfold the predicate definitions. -/
@[simp] theorem isCacheEvent_printed (s : String) : isCacheEvent (Event.printed s) = false := rfl
@[simp] theorem isCacheEvent_echoed (s : String) : isCacheEvent (Event.echoed s) = false := rfl
@[simp] theorem isCacheEvent_prompted (s : String) : isCacheEvent (Event.prompted s) = false := rfl
@[simp] theorem isCacheEvent_serviceCalled (s : String) : isCacheEvent (Event.serviceCalled s) = false := rfl
@[simp] theorem isCacheEvent_printedResponse (r : RawResponse) : isCacheEvent (Event.printedResponse r) = false := rfl
@[simp] theorem isCacheEvent_cachedRecent (s : String) : isCacheEvent (Event.cachedRecent s) = true := rfl
@[simp] theorem isCacheEvent_openedEditor (s : String) : isCacheEvent (Event.openedEditor s) = false := rfl
@[simp] theorem isCacheEvent_ranSystem (s : String) : isCacheEvent (Event.ranSystem s) = false := rfl
@[simp] theorem isCacheEvent_printedExc : isCacheEvent Event.printedExc = false := rfl
@[simp] theorem isEditorEvent_printed (s : String) : isEditorEvent (Event.printed s) = false := rfl
@[simp] theorem isEditorEvent_echoed (s : String) : isEditorEvent (Event.echoed s) = false := rfl
@[simp] theorem isEditorEvent_prompted (s : String) : isEditorEvent (Event.prompted s) = false := rfl
@[simp] theorem isEditorEvent_serviceCalled (s : String) : isEditorEvent (Event.serviceCalled s) = false := rfl
@[simp] theorem isEditorEvent_printedResponse (r : RawResponse) : isEditorEvent (Event.printedResponse r) = false := rfl
@[simp] theorem isEditorEvent_cachedRecent (s : String) : isEditorEvent (Event.cachedRecent s) = false := rfl
@[simp] theorem isEditorEvent_openedEditor (s : String) : isEditorEvent (Event.openedEditor s) = true := rfl
@[simp] theorem isEditorEvent_ranSystem (s : String) : isEditorEvent (Event.ranSystem s) = false := rfl
@[simp] theorem isEditorEvent_printedExc : isEditorEvent Event.printedExc = false := rfl
@[simp] theorem isLaunchEvent_printed (s : String) : isLaunchEvent (Event.printed s) = false := rfl
@[simp] theorem isLaunchEvent_echoed (s : String) : isLaunchEvent (Event.echoed s) = false := rfl
@[simp] theorem isLaunchEvent_prompted (s : String) : isLaunchEvent (Event.prompted s) = false := rfl
@[simp] theorem isLaunchEvent_serviceCalled (s : String) : isLaunchEvent (Event.serviceCalled s) = false := rfl
@[simp] theorem isLaunchEvent_printedResponse (r : RawResponse) : isLaunchEvent (Event.printedResponse r) = false := rfl
@[simp] theorem isLaunchEvent_cachedRecent (s : String) : isLaunchEvent (Event.cachedRecent s) = false := rfl
@[simp] theorem isLaunchEvent_openedEditor (s : String) : isLaunchEvent (Event.openedEditor s) = true := rfl
@[simp] theorem isLaunchEvent_ranSystem (s : String) : isLaunchEvent (Event.ranSystem s) = true := rfl
@[simp] theorem isLaunchEvent_printedExc : isLaunchEvent Event.printedExc = false := rfl
@[simp] theorem isPromptEvent_printed (s : String) : isPromptEvent (Event.printed s) = false := rfl
@[simp] theorem isPromptEvent_echoed (s : String) : isPromptEvent (Event.echoed s) = false := rfl
@[simp] theorem isPromptEvent_prompted (s : String) : isPromptEvent (Event.prompted s) = true := rfl
@[simp] theorem isPromptEvent_serviceCalled (s : String) : isPromptEvent (Event.serviceCalled s) = false := rfl
@[simp] theorem isPromptEvent_printedResponse (r : RawResponse) : isPromptEvent (Event.printedResponse r) = false := rfl
@[simp] theorem isPromptEvent_cachedRecent (s : String) : isPromptEvent (Event.cachedRecent s) = false := rfl
@[simp] theorem isPromptEvent_openedEditor (s : String) : isPromptEvent (Event.openedEditor s) = false := rfl
@[simp] theorem isPromptEvent_ranSystem (s : String) : isPromptEvent (Event.ranSystem s) = false := rfl
@[simp] theorem isPromptEvent_printedExc : isPromptEvent Event.printedExc = false := rfl
@[simp] theorem isServiceEvent_printed (s : String) : isServiceEvent (Event.printed s) = false := rfl
@[simp] theorem isServiceEvent_echoed (s : String) : isServiceEvent (Event.echoed s) = false := rfl
@[simp] theorem isServiceEvent_prompted (s : String) : isServiceEvent (Event.prompted s) = false := rfl
@[simp] theorem isServiceEvent_serviceCalled (s : String) : isServiceEvent (Event.serviceCalled s) = true := rfl
@[simp] theorem isServiceEvent_printedResponse (r : RawResponse) : isServiceEvent (Event.printedResponse r) = false := rfl
@[simp] theorem isServiceEvent_cachedRecent (s : String) : isServiceEvent (Event.cachedRecent s) = false := rfl
@[simp] theorem isServiceEvent_openedEditor (s : String) : isServiceEvent (Event.openedEditor s) = false := rfl
@[simp] theorem isServiceEvent_ranSystem (s : String) : isServiceEvent (Event.ranSystem s) = false := rfl
@[simp] theorem isServiceEvent_printedExc : isServiceEvent Event.printedExc = false := rfl
@[simp] theorem isRanEvent_printed (s : String) : isRanEvent (Event.printed s) = false := rfl
@[simp] theorem isRanEvent_echoed (s : String) : isRanEvent (Event.echoed s) = false := rfl
@[simp] theorem isRanEvent_prompted (s : String) : isRanEvent (Event.prompted s) = false := rfl
@[simp] theorem isRanEvent_serviceCalled (s : String) : isRanEvent (Event.serviceCalled s) = false := rfl
@[simp] theorem isRanEvent_printedResponse (r : RawResponse) : isRanEvent (Event.printedResponse r) = false := rfl
@[simp] theorem isRanEvent_cachedRecent (s : String) : isRanEvent (Event.cachedRecent s) = false := rfl
@[simp] theorem isRanEvent_openedEditor (s : String) : isRanEvent (Event.openedEditor s) = false := rfl
@[simp] theorem isRanEvent_ranSystem (s : String) : isRanEvent (Event.ranSystem s) = true := rfl
@[simp] theorem isRanEvent_printedExc : isRanEvent Event.printedExc = false := rfl

/-- A candidate with a numeric confidence stores some rational. -/
theorem scoreIsNum_num {c : Candidate} (h : scoreIsNum c = true) :
    ∃ a : ℚ, c.confidence_score = PyVal.num a := by
  cases hh : c.confidence_score with
  | num a => exact ⟨a, rfl⟩
  | str s => simp [scoreIsNum, hh] at h
  | null => simp [scoreIsNum, hh] at h

/-- The numeric score of a numerically-scored candidate. -/
theorem scoreQ_eq {c : Candidate} {a : ℚ} (h : c.confidence_score = PyVal.num a) :
    scoreQ c = a := by
  simp [scoreQ, h]

/-- The reference insertion permutes: inserting `c` yields `c :: l` up to
order. -/
theorem insertDesc_perm (c : Candidate) (l : List Candidate) :
    (insertDesc c l).Perm (c :: l) := by
  induction l with
  | nil => simp [insertDesc]
  | cons x xs ih =>
    by_cases h : scoreQ c < scoreQ x
    · simp only [insertDesc, if_pos h]
      exact (ih.cons x).trans (List.Perm.swap c x xs)
    · simp only [insertDesc, if_neg h]
      exact List.Perm.refl _

/-- The reference sort is a permutation of its input. -/
theorem sortDesc_perm (l : List Candidate) : (sortDesc l).Perm l := by
  induction l with
  | nil => exact List.Perm.refl _
  | cons c cs ih =>
    exact (insertDesc_perm c (sortDesc cs)).trans (ih.cons c)

/-- The reference sort preserves length. -/
theorem sortDesc_length (l : List Candidate) : (sortDesc l).length = l.length :=
  (sortDesc_perm l).length_eq

/-- Insertion preserves descending pairwise order on the numeric scores. -/
theorem pairwise_insertDesc (c : Candidate) (l : List Candidate)
    (h : l.Pairwise (fun a b => scoreQ b ≤ scoreQ a)) :
    (insertDesc c l).Pairwise (fun a b => scoreQ b ≤ scoreQ a) := by
  induction l with
  | nil => simp [insertDesc]
  | cons x xs ih =>
    rcases List.pairwise_cons.mp h with ⟨hx, hxs⟩
    by_cases hc : scoreQ c < scoreQ x
    · simp only [insertDesc, if_pos hc]
      refine List.pairwise_cons.mpr ⟨?_, ih hxs⟩
      intro y hy
      rcases List.mem_cons.mp ((insertDesc_perm c xs).mem_iff.mp hy) with rfl | hy'
      · exact le_of_lt hc
      · exact hx y hy'
    · simp only [insertDesc, if_neg hc]
      refine List.pairwise_cons.mpr ⟨?_, h⟩
      intro y hy
      rcases List.mem_cons.mp hy with rfl | hy'
      · exact not_lt.mp hc
      · exact le_trans (hx y hy') (not_lt.mp hc)

/-- The reference sort is sorted non-increasing on the numeric scores. -/
theorem sortDesc_pairwise (l : List Candidate) :
    (sortDesc l).Pairwise (fun a b => scoreQ b ≤ scoreQ a) := by
  induction l with
  | nil => simp [sortDesc]
  | cons c cs ih => exact pairwise_insertDesc c (sortDesc cs) ih

/-- Stability of insertion: among candidates of any one score value, the
inserted element lands in front exactly when its score is that value, and
the relative order of the others is untouched. -/
theorem filter_insertDesc (c : Candidate) (l : List Candidate) (q : ℚ) :
    (insertDesc c l).filter (fun x => decide (scoreQ x = q))
      = if scoreQ c = q then c :: l.filter (fun x => decide (scoreQ x = q))
        else l.filter (fun x => decide (scoreQ x = q)) := by
  induction l with
  | nil => by_cases h : scoreQ c = q <;> simp [insertDesc, h]
  | cons x xs ih =>
    by_cases hc : scoreQ c < scoreQ x
    · simp only [insertDesc, if_pos hc]
      by_cases hq : scoreQ c = q
      · have hx : ¬ scoreQ x = q := Ne.symm (ne_of_lt (hq ▸ hc))
        simp [List.filter_cons, hq, hx, ih]
      · by_cases hxq : scoreQ x = q <;> simp [List.filter_cons, hq, hxq, ih]
    · simp only [insertDesc, if_neg hc]
      by_cases hq : scoreQ c = q <;> by_cases hxq : scoreQ x = q <;>
        simp [List.filter_cons, hq, hxq]

/-- Stability of the reference sort: for every score value, sorting does not
change the relative order of the candidates carrying that value. -/
theorem sortDesc_filter_stable (l : List Candidate) (q : ℚ) :
    (sortDesc l).filter (fun x => decide (scoreQ x = q))
      = l.filter (fun x => decide (scoreQ x = q)) := by
  induction l with
  | nil => rfl
  | cons c cs ih =>
    by_cases hq : scoreQ c = q
    · simp [sortDesc, filter_insertDesc, hq, List.filter_cons, ih]
    · simp [sortDesc, filter_insertDesc, hq, List.filter_cons, ih]

/-- On numerically-scored candidates the fallible insertion of the source
sort never raises and agrees with the reference insertion. -/
theorem insertDescM_eq_ok (c : Candidate) (l : List Candidate)
    (hc : scoreIsNum c = true) (hl : ∀ x ∈ l, scoreIsNum x = true) :
    insertDescM c l = Except.ok (insertDesc c l) := by
  induction l with
  | nil => rfl
  | cons x xs ih =>
    obtain ⟨qc, hqc⟩ := scoreIsNum_num hc
    obtain ⟨qx, hqx⟩ := scoreIsNum_num (hl x (List.mem_cons_self x xs))
    have hxs : ∀ y ∈ xs, scoreIsNum y = true :=
      fun y hy => hl y (List.mem_cons_of_mem x hy)
    by_cases hlt : qc < qx
    · simp [insertDescM, insertDesc, hqc, hqx, pyLt, hlt, ih hxs,
        scoreQ_eq hqc, scoreQ_eq hqx]
    · simp [insertDescM, insertDesc, hqc, hqx, pyLt, hlt,
        scoreQ_eq hqc, scoreQ_eq hqx]

/-- On numerically-scored candidates the source sort never raises and
computes exactly the stable descending reference sort. -/
theorem sortByConfidence_eq_ok (l : List Candidate)
    (hl : ∀ x ∈ l, scoreIsNum x = true) :
    sortByConfidence l = Except.ok (sortDesc l) := by
  induction l with
  | nil => rfl
  | cons c cs ih =>
    have hcs : ∀ x ∈ cs, scoreIsNum x = true :=
      fun x hx => hl x (List.mem_cons_of_mem c hx)
    simp only [sortByConfidence, sortDesc, ih hcs]
    exact insertDescM_eq_ok c (sortDesc cs) (hl c (List.mem_cons_self c cs))
      (fun x hx => hcs x ((sortDesc_perm cs).mem_iff.mp hx))

/-- Every event of the recent-files listing is an echo. -/
theorem recentListEvents_echoed {files : List String} {e : Event}
    (he : e ∈ recentListEvents files) : ∃ s, e = Event.echoed s := by
  rcases List.mem_map.mp he with ⟨p, _, rfl⟩
  exact ⟨_, rfl⟩

/-- Unfolding equation of `echoMenu` when the menu line formats. -/
theorem echoMenu_cons_ok {i : Nat} {c : Candidate} {s : String} {cs : List Candidate}
    (h : menuLine i c = Except.ok s) :
    echoMenu i (c :: cs)
      = (Event.echoed s :: (echoMenu (i + 1) cs).1, (echoMenu (i + 1) cs).2) := by
  simp only [echoMenu, h]

/-- Unfolding equation of `echoMenu` when the menu line raises. -/
theorem echoMenu_cons_err {i : Nat} {c : Candidate} {cs : List Candidate}
    (h : menuLine i c = Except.error ()) :
    echoMenu i (c :: cs) = ([], Except.error ()) := by
  simp only [echoMenu, h]

/-- Every event the menu loop emits is an echo. -/
theorem echoMenu_echoed :
    ∀ (ms : List Candidate) (i : Nat) (e : Event),
      e ∈ (echoMenu i ms).1 → ∃ s, e = Event.echoed s := by
  intro ms
  induction ms with
  | nil =>
    intro i e h
    simp [echoMenu] at h
  | cons c cs ih =>
    intro i e h
    cases hml : menuLine i c with
    | error u =>
      cases u
      rw [echoMenu_cons_err hml] at h
      simp at h
    | ok s =>
      rw [echoMenu_cons_ok hml] at h
      rcases List.mem_cons.mp h with rfl | h'
      · exact ⟨s, rfl⟩
      · exact ih (i + 1) e h'

/-- A predicate false on echoes holds on no menu event. -/
theorem echoMenu_any_false (P : Event → Bool) (hP : ∀ s, P (Event.echoed s) = false)
    (i : Nat) (ms : List Candidate) : (echoMenu i ms).1.any P = false := by
  rw [List.any_eq_false]
  intro x hx
  rcases echoMenu_echoed ms i x hx with ⟨s, rfl⟩
  simp [hP]

/-- A predicate false on echoes holds on no recent-listing event. -/
theorem recentListEvents_any_false (P : Event → Bool)
    (hP : ∀ s, P (Event.echoed s) = false) (files : List String) :
    (recentListEvents files).any P = false := by
  rw [List.any_eq_false]
  intro x hx
  rcases recentListEvents_echoed hx with ⟨s, rfl⟩
  simp [hP]

/-- The menu events contain no cache write and no editor launch. -/
theorem echoMenu_filter_cache_editor (i : Nat) (ms : List Candidate) :
    (echoMenu i ms).1.filter (fun e => isCacheEvent e || isEditorEvent e) = [] := by
  rw [List.filter_eq_nil_iff]
  intro a ha
  rcases echoMenu_echoed ms i a ha with ⟨s, rfl⟩
  simp [isCacheEvent, isEditorEvent]

/-- C2: for raw result lists whose (parsed) confidence scores are numbers —
the shape the matching-service interface promises; a non-numeric score can
make the sort raise instead, see the C5 theorems — the parse-and-rank step
succeeds, and its output has the length of the input, is a permutation of
the parsed records, is sorted non-increasing by `confidence_score`, and
lists candidates of equal score in their original input order. -/
theorem rank_length_perm_sorted_stable (raw : List RawRecord)
    (h : ∀ c ∈ raw.map parseRecord, scoreIsNum c = true) :
    rankList raw = Except.ok (sortDesc (raw.map parseRecord))
    ∧ (sortDesc (raw.map parseRecord)).length = raw.length
    ∧ (raw.map parseRecord).Perm (sortDesc (raw.map parseRecord))
    ∧ (sortDesc (raw.map parseRecord)).Pairwise (fun a b => scoreQ b ≤ scoreQ a)
    ∧ ∀ q : ℚ, (sortDesc (raw.map parseRecord)).filter (fun x => decide (scoreQ x = q))
        = (raw.map parseRecord).filter (fun x => decide (scoreQ x = q)) := by
  refine ⟨sortByConfidence_eq_ok _ h, ?_, (sortDesc_perm _).symm,
    sortDesc_pairwise _, fun q => sortDesc_filter_stable _ q⟩
  rw [sortDesc_length, List.length_map]

/-- C2 witness: three records, two of them tied at score one-half; ranking
succeeds, keeps the tie in input order, and puts the high score first. -/
theorem rank_length_perm_sorted_stable_witness :
    (∀ c ∈ (List.map parseRecord
        [ ⟨Option.some (PyVal.str "a.py"), Option.some (PyVal.num (mkRat 1 2)), Option.none⟩
        , ⟨Option.some (PyVal.str "b.py"), Option.some (PyVal.num (mkRat 9 10)), Option.none⟩
        , ⟨Option.some (PyVal.str "c.py"), Option.some (PyVal.num (mkRat 1 2)), Option.none⟩ ]),
      scoreIsNum c = true)
    ∧ (rankList
        [ ⟨Option.some (PyVal.str "a.py"), Option.some (PyVal.num (mkRat 1 2)), Option.none⟩
        , ⟨Option.some (PyVal.str "b.py"), Option.some (PyVal.num (mkRat 9 10)), Option.none⟩
        , ⟨Option.some (PyVal.str "c.py"), Option.some (PyVal.num (mkRat 1 2)), Option.none⟩ ]
        = Except.ok (sortDesc (List.map parseRecord
        [ ⟨Option.some (PyVal.str "a.py"), Option.some (PyVal.num (mkRat 1 2)), Option.none⟩
        , ⟨Option.some (PyVal.str "b.py"), Option.some (PyVal.num (mkRat 9 10)), Option.none⟩
        , ⟨Option.some (PyVal.str "c.py"), Option.some (PyVal.num (mkRat 1 2)), Option.none⟩ ]))) :=
  ⟨by decide, (rank_length_perm_sorted_stable _ (by decide)).1⟩

/-- C5, counterexample to totality: a record with a missing score (defaulted
to the float `0.8`) next to a record whose `confidence_score` is the string
`"high"` makes the rank step raise `TypeError` in the sort comparison, so
parse-and-rank is NOT total over arbitrary record contents. -/
theorem rank_raises_on_malformed_score :
    rankList [ ⟨Option.none, Option.none, Option.none⟩
             , ⟨Option.none, Option.some (PyVal.str "high"), Option.none⟩ ]
      = Except.error () := by
  decide

/-- C5 as amended: extraction is total with the documented defaults
(`""`, the float `0.8` — here `mkRat 4 5` — and `"unknown"`) for absent
fields, and present fields are kept as-is (not validated); parse-and-rank
as a whole never raises provided every present `confidence_score` is
numeric (it can raise otherwise, see `rank_raises_on_malformed_score`). -/
theorem parse_defaults_and_rank_total (f c t : Option PyVal) (raw : List RawRecord)
    (h : ∀ x ∈ raw.map parseRecord, scoreIsNum x = true) :
    parseRecord ⟨Option.none, Option.none, Option.none⟩
        = ⟨PyVal.str "", PyVal.num (mkRat 4 5), PyVal.str "unknown"⟩
    ∧ (parseRecord ⟨f, c, t⟩).file_path = f.getD (PyVal.str "")
    ∧ (parseRecord ⟨f, c, t⟩).confidence_score = c.getD (PyVal.num (mkRat 4 5))
    ∧ (parseRecord ⟨f, c, t⟩).file_type = t.getD (PyVal.str "unknown")
    ∧ ∃ out, rankList raw = Except.ok out :=
  ⟨rfl, rfl, rfl, rfl, ⟨sortDesc (raw.map parseRecord), sortByConfidence_eq_ok _ h⟩⟩

/-- C5 witness: a record with only a numeric score present parses with the
path and type defaults and ranks successfully. -/
theorem parse_defaults_and_rank_total_witness :
    (∀ x ∈ List.map parseRecord
        [⟨Option.none, Option.some (PyVal.num (mkRat 1 2)), Option.none⟩],
      scoreIsNum x = true)
    ∧ ∃ out, rankList [⟨Option.none, Option.some (PyVal.num (mkRat 1 2)), Option.none⟩]
        = Except.ok out :=
  ⟨by decide,
   (parse_defaults_and_rank_total Option.none Option.none Option.none _ (by decide)).2.2.2.2⟩

/-- C1: on a non-empty ranked list whose top candidate has a numeric score
and a string path (the shapes the service interface promises; other shapes
make line 213 or the subsequent join raise instead), the resolution
auto-opens — launches the editor with no interactive prompt — exactly when
the top `confidence_score` is strictly greater than `0.9`; otherwise
(including a score of exactly `0.9`) it enters disambiguation, echoing the
multiple-matches menu. -/
theorem resolve_autoOpen_iff_gt (pr choice rel : String) (rest : List Candidate)
    (top : Candidate) (q : ℚ)
    (h1 : top.confidence_score = PyVal.num q) (h2 : top.file_path = PyVal.str rel) :
    (autoOpenedB (resolveStage pr choice (top :: rest)) = true ↔ mkRat 9 10 < q)
    ∧ (¬ mkRat 9 10 < q →
       Event.echoed ("Multiple matches found:") ∈ (resolveStage pr choice (top :: rest)).1) := by
  by_cases hq : mkRat 9 10 < q
  · have hr : resolveStage pr choice (top :: rest)
        = ([Event.printed ("High confidence match found: " ++ osPathJoin pr rel),
            Event.cachedRecent (osPathJoin pr rel),
            Event.openedEditor (osPathJoin pr rel)],
           Except.ok ("Opened file: " ++ osPathJoin pr rel)) := by
      simp [resolveStage, h1, h2, pyGtFloat, hq]
    rw [hr]
    constructor
    · simp [autoOpenedB, isEditorEvent, isPromptEvent, hq]
    · intro hc
      exact absurd hq hc
  · have hdec : pyGtFloat top.confidence_score (mkRat 9 10) = Except.ok false := by
      simp [pyGtFloat, h1, hq]
    have key : autoOpenedB (resolveStage pr choice (top :: rest)) = false
        ∧ Event.echoed ("Multiple matches found:")
            ∈ (resolveStage pr choice (top :: rest)).1 := by
      simp only [resolveStage, hdec]
      cases hm : (echoMenu 0 ((top :: rest).take 5)).2 with
      | error u =>
        refine ⟨?_, by simp⟩
        simp [autoOpenedB, isEditorEvent,
          echoMenu_any_false isEditorEvent (fun s => rfl)]
      | ok u =>
        cases hi : pyInt choice with
        | error u2 =>
          refine ⟨?_, by simp [hi]⟩
          simp [hi, autoOpenedB, isEditorEvent,
            echoMenu_any_false isEditorEvent (fun s => rfl)]
        | ok n =>
          cases hx : pyIndex (top :: rest) (n - 1) with
          | error u3 =>
            refine ⟨?_, by simp [hi, hx]⟩
            simp [hi, hx, autoOpenedB, isEditorEvent,
              echoMenu_any_false isEditorEvent (fun s => rfl)]
          | ok sel =>
            cases hf : sel.file_path with
            | str r2 =>
              refine ⟨?_, by simp [hi, hx, hf]⟩
              simp [hi, hx, hf, autoOpenedB, isPromptEvent]
            | num q2 =>
              refine ⟨?_, by simp [hi, hx, hf]⟩
              simp [hi, hx, hf, autoOpenedB, isEditorEvent,
                echoMenu_any_false isEditorEvent (fun s => rfl)]
            | null =>
              refine ⟨?_, by simp [hi, hx, hf]⟩
              simp [hi, hx, hf, autoOpenedB, isEditorEvent,
                echoMenu_any_false isEditorEvent (fun s => rfl)]
    refine ⟨?_, fun _ => key.2⟩
    rw [key.1]
    simp [hq]

/-- C1 witness: a top candidate scored exactly `0.9` does not auto-open and
enters disambiguation (the iff instantiated at the boundary). -/
theorem resolve_autoOpen_iff_gt_witness :
    ((⟨PyVal.str "a.py", PyVal.num (mkRat 9 10), PyVal.str "module"⟩ : Candidate).confidence_score
        = PyVal.num (mkRat 9 10))
    ∧ ((autoOpenedB (resolveStage "/proj" "1"
          [⟨PyVal.str "a.py", PyVal.num (mkRat 9 10), PyVal.str "module"⟩]) = true
        ↔ mkRat 9 10 < mkRat 9 10)
       ∧ (¬ mkRat 9 10 < mkRat 9 10 →
          Event.echoed ("Multiple matches found:")
            ∈ (resolveStage "/proj" "1"
                [⟨PyVal.str "a.py", PyVal.num (mkRat 9 10), PyVal.str "module"⟩]).1)) :=
  ⟨rfl, resolve_autoOpen_iff_gt "/proj" "1" "a.py" []
      ⟨PyVal.str "a.py", PyVal.num (mkRat 9 10), PyVal.str "module"⟩
      (mkRat 9 10) rfl rfl⟩

/-- C3 (code bug witnessed on the code): two candidates are presented, the
user replies `"0"`; instead of the claimed cancellation, Python's negative
indexing (`matches[int("0") - 1]` = `matches[-1]`) selects the LAST
candidate, which is cached and opened, and the returned message is the
open confirmation, not `"Invalid selection"`. -/
theorem zero_reply_opens_last_candidate :
    (edit_file envC3).1 = "Opened module file: /proj/b.py"
    ∧ (edit_file envC3).2.any isEditorEvent = true
    ∧ (edit_file envC3).1 ≠ "Invalid selection" := by
  decide

/-- Indexing the empty list always raises, whatever the index. -/
theorem pyIndex_nil {α : Type} (i : Int) : pyIndex ([] : List α) i = Except.error () := by
  unfold pyIndex
  split
  · rfl
  · split <;> rfl

/-- Events of the recent-files branch: never the service call, never a cache
write, never an `open_in_editor` launch. -/
theorem recentBranch_events (files : List String) (choice : String) :
    ∀ e ∈ (recentBranch files choice).2,
      isServiceEvent e = false ∧ isCacheEvent e = false ∧ isEditorEvent e = false := by
  intro e he
  cases files with
  | nil =>
    simp [recentBranch] at he
    subst he
    exact ⟨rfl, rfl, rfl⟩
  | cons f fs =>
    have hshape : (∃ s, e = Event.printed s) ∨ (∃ s, e = Event.echoed s)
        ∨ (∃ s, e = Event.prompted s) ∨ (∃ s, e = Event.ranSystem s) := by
      cases hi : pyInt choice with
      | error u =>
        simp [recentBranch, hi, List.mem_append] at he
        rcases he with rfl | rfl | he | rfl
        · exact Or.inl ⟨_, rfl⟩
        · exact Or.inr (Or.inl ⟨_, rfl⟩)
        · rcases recentListEvents_echoed he with ⟨s, rfl⟩
          exact Or.inr (Or.inl ⟨_, rfl⟩)
        · exact Or.inr (Or.inr (Or.inl ⟨_, rfl⟩))
      | ok n =>
        cases hx : pyIndex (f :: fs) (n - 1) with
        | error u =>
          simp [recentBranch, hi, hx, List.mem_append] at he
          rcases he with rfl | rfl | he | rfl
          · exact Or.inl ⟨_, rfl⟩
          · exact Or.inr (Or.inl ⟨_, rfl⟩)
          · rcases recentListEvents_echoed he with ⟨s, rfl⟩
            exact Or.inr (Or.inl ⟨_, rfl⟩)
          · exact Or.inr (Or.inr (Or.inl ⟨_, rfl⟩))
        | ok sel =>
          simp [recentBranch, hi, hx, List.mem_append] at he
          rcases he with rfl | rfl | he | rfl | rfl | rfl
          · exact Or.inl ⟨_, rfl⟩
          · exact Or.inr (Or.inl ⟨_, rfl⟩)
          · rcases recentListEvents_echoed he with ⟨s, rfl⟩
            exact Or.inr (Or.inl ⟨_, rfl⟩)
          · exact Or.inr (Or.inr (Or.inl ⟨_, rfl⟩))
          · exact Or.inl ⟨_, rfl⟩
          · exact Or.inr (Or.inr (Or.inr ⟨_, rfl⟩))
    rcases hshape with ⟨s, rfl⟩ | ⟨s, rfl⟩ | ⟨s, rfl⟩ | ⟨s, rfl⟩ <;> exact ⟨rfl, rfl, rfl⟩

/-- With a non-empty cache the recent-files branch always prompts. -/
theorem recentBranch_prompts (f : String) (fs : List String) (choice : String) :
    Event.prompted ("Which file to open? (number)") ∈ (recentBranch (f :: fs) choice).2 := by
  cases hi : pyInt choice with
  | error u => simp [recentBranch, hi, List.mem_append]
  | ok n =>
    cases hx : pyIndex (f :: fs) (n - 1) with
    | error u => simp [recentBranch, hi, hx, List.mem_append]
    | ok sel => simp [recentBranch, hi, hx, List.mem_append]

/-- With a non-empty cache the recent-files branch echoes the listing. -/
theorem recentBranch_lists (f : String) (fs : List String) (choice : String) :
    ∀ e ∈ recentListEvents (f :: fs), e ∈ (recentBranch (f :: fs) choice).2 := by
  intro e he
  cases hi : pyInt choice with
  | error u => simp [recentBranch, hi, List.mem_append, he]
  | ok n =>
    cases hx : pyIndex (f :: fs) (n - 1) with
    | error u => simp [recentBranch, hi, hx, List.mem_append, he]
    | ok sel => simp [recentBranch, hi, hx, List.mem_append, he]

/-- A valid (Python) numeric choice makes the recent-files branch run
`code --goto` on the selected path and report it opened. -/
theorem recentBranch_opens (files : List String) (choice : String) (n : Int) (sel : String)
    (hi : pyInt choice = Except.ok n) (hx : pyIndex files (n - 1) = Except.ok sel) :
    (recentBranch files choice).1 = "========== Opened recent file: " ++ sel
    ∧ Event.ranSystem ("code --goto " ++ sel) ∈ (recentBranch files choice).2 := by
  cases files with
  | nil => rw [pyIndex_nil] at hx; exact Except.noConfusion hx
  | cons f fs =>
    constructor
    · simp [recentBranch, hi, hx]
    · simp [recentBranch, hi, hx, List.mem_append]

/-- Shape of a full run that routes to the recent-files shortcut. -/
theorem edit_file_recent_eq (env : Env) (pr : String)
    (hws : workspaceStage env.currentWorkspace env.workspaces env.defaultRoot
        = WsOutcome.root pr)
    (hrec : containsRecent env.fileDescription = true) :
    edit_file env = ((recentBranch env.recentFiles env.userChoice).1,
      [ Event.printed ("DEBUG: Starting edit_file command")
      , Event.printed ("DEBUG: Getting workspace config for '" ++ pyShowOpt env.workspaceOpt ++ "'")
      , Event.printed ("DEBUG: Current workspace: " ++ pyShowOpt env.currentWorkspace)
      , Event.printed ("DEBUG: Project root set to: " ++ pr)
      , Event.printed ("========== Starting edit_file with: " ++ env.fileDescription) ]
      ++ (recentBranch env.recentFiles env.userChoice).2) := by
  simp [edit_file, editFileCore, afterOptPrint, branchStage, hws, hrec]

/-- Shape of a full run that aborts on an unconfigured current workspace. -/
theorem edit_file_wsNotFound_eq (env : Env) (w : String)
    (hws : workspaceStage env.currentWorkspace env.workspaces env.defaultRoot
        = WsOutcome.notFound w) :
    edit_file env = ("Current workspace '" ++ w ++ "' not found",
      [ Event.printed ("DEBUG: Starting edit_file command")
      , Event.printed ("DEBUG: Getting workspace config for '" ++ pyShowOpt env.workspaceOpt ++ "'")
      , Event.printed ("DEBUG: Current workspace: " ++ pyShowOpt env.currentWorkspace)
      , Event.printed ("DEBUG: Current workspace '" ++ w ++ "' not found in config") ]) := by
  simp [edit_file, editFileCore, afterOptPrint, hws]

/-- C4: when the matching-service call raises, the orchestrator returns the
single generic failure message; the cache is never written and the editor
is never launched (by either mechanism); and — by construction of the total
function `edit_file` — no exception escapes to the caller. -/
theorem service_error_single_failure_no_commit (env : Env) (pr : String)
    (hws : workspaceStage env.currentWorkspace env.workspaces env.defaultRoot
        = WsOutcome.root pr)
    (hrec : containsRecent env.fileDescription = false)
    (hsvc : env.service (env.getPrompt env.currentWorkspace
        (env.getCodebaseStructure pr) env.fileDescription) = Except.error ()) :
    (edit_file env).1 = "Error: Could not edit file"
    ∧ (edit_file env).2.all (fun e => !(isCacheEvent e || isLaunchEvent e)) = true := by
  constructor <;>
    simp [edit_file, editFileCore, afterOptPrint, branchStage, mainBranch,
      hws, hrec, hsvc, isCacheEvent, isLaunchEvent]

/-- C4 witness: the concrete raising-service scenario. -/
theorem service_error_single_failure_no_commit_witness :
    (workspaceStage envC4w.currentWorkspace envC4w.workspaces envC4w.defaultRoot
        = WsOutcome.root "/proj"
     ∧ containsRecent envC4w.fileDescription = false)
    ∧ ((edit_file envC4w).1 = "Error: Could not edit file"
       ∧ (edit_file envC4w).2.all (fun e => !(isCacheEvent e || isLaunchEvent e)) = true) :=
  ⟨⟨by decide, by decide⟩,
   service_error_single_failure_no_commit envC4w "/proj" (by decide) (by decide) rfl⟩

/-- C6: when the service response's parsed candidate list is empty
(`"results"` absent or the empty list), the run returns the no-match
message and never calls the interactive prompt. -/
theorem empty_results_no_match_no_prompt (env : Env) (pr : String) (resp : RawResponse)
    (hws : workspaceStage env.currentWorkspace env.workspaces env.defaultRoot
        = WsOutcome.root pr)
    (hrec : containsRecent env.fileDescription = false)
    (hsvc : env.service (env.getPrompt env.currentWorkspace
        (env.getCodebaseStructure pr) env.fileDescription) = Except.ok resp)
    (hres : (resp.results?).getD [] = []) :
    (edit_file env).1 = "No matching files found"
    ∧ (edit_file env).2.all (fun e => !isPromptEvent e) = true := by
  constructor <;>
    simp [edit_file, editFileCore, afterOptPrint, branchStage, mainBranch,
      hws, hrec, hsvc, hres, rankList, sortByConfidence, resolveStage, isPromptEvent]

/-- C6 witness: a response without a `"results"` key. -/
theorem empty_results_no_match_no_prompt_witness :
    (workspaceStage envC6w.currentWorkspace envC6w.workspaces envC6w.defaultRoot
        = WsOutcome.root "/proj"
     ∧ containsRecent envC6w.fileDescription = false
     ∧ ((⟨Option.none⟩ : RawResponse).results?).getD [] = [])
    ∧ ((edit_file envC6w).1 = "No matching files found"
       ∧ (edit_file envC6w).2.all (fun e => !isPromptEvent e) = true) :=
  ⟨⟨by decide, by decide, rfl⟩,
   empty_results_no_match_no_prompt envC6w "/proj" ⟨Option.none⟩
     (by decide) (by decide) rfl rfl⟩

/-- C7: when the description contains `"recent"` case-insensitively, the
run never calls the matching service (the whole request-construction and
ranking pipeline is bypassed); with a non-empty cache it lists the cached
files and prompts for a number; and a (Python-)valid numeric choice makes
it launch `code --goto` on the chosen path and report it opened. -/
theorem recent_shortcut_bypasses_service (env : Env) (pr : String)
    (hws : workspaceStage env.currentWorkspace env.workspaces env.defaultRoot
        = WsOutcome.root pr)
    (hrec : containsRecent env.fileDescription = true) :
    (edit_file env).2.all (fun e => !isServiceEvent e) = true
    ∧ (∀ f fs, env.recentFiles = f :: fs →
        Event.prompted ("Which file to open? (number)") ∈ (edit_file env).2
        ∧ ∀ e ∈ recentListEvents env.recentFiles, e ∈ (edit_file env).2)
    ∧ (∀ n sel, pyInt env.userChoice = Except.ok n →
        pyIndex env.recentFiles (n - 1) = Except.ok sel →
        Event.ranSystem ("code --goto " ++ sel) ∈ (edit_file env).2
        ∧ (edit_file env).1 = "========== Opened recent file: " ++ sel) := by
  rw [edit_file_recent_eq env pr hws hrec]
  refine ⟨?_, ?_, ?_⟩
  · rw [List.all_eq_true]
    intro e he
    simp only [List.mem_append, List.mem_cons, List.not_mem_nil, or_false] at he
    rcases he with (rfl | rfl | rfl | rfl | rfl) | he
    · rfl
    · rfl
    · rfl
    · rfl
    · rfl
    · simp [(recentBranch_events env.recentFiles env.userChoice e he).1]
  · intro f fs hrf
    rw [hrf]
    constructor
    · simp only [List.mem_append]
      exact Or.inr (recentBranch_prompts f fs env.userChoice)
    · intro e he
      simp only [List.mem_append]
      exact Or.inr (recentBranch_lists f fs env.userChoice e he)
  · intro n sel hi hx
    have h := recentBranch_opens env.recentFiles env.userChoice n sel hi hx
    refine ⟨?_, h.1⟩
    simp only [List.mem_append]
    exact Or.inr h.2

/-- C7 witness: description `"show me RECENT files"`, cache
`["x.py", "y.py"]`, choice `"1"` — the service is never called and
`x.py` is opened. -/
theorem recent_shortcut_bypasses_service_witness :
    (workspaceStage envC7w.currentWorkspace envC7w.workspaces envC7w.defaultRoot
        = WsOutcome.root "/proj"
     ∧ containsRecent envC7w.fileDescription = true
     ∧ pyInt envC7w.userChoice = Except.ok 1
     ∧ pyIndex envC7w.recentFiles (1 - 1) = Except.ok "x.py")
    ∧ ((edit_file envC7w).2.all (fun e => !isServiceEvent e) = true
       ∧ Event.ranSystem ("code --goto " ++ "x.py") ∈ (edit_file envC7w).2
       ∧ (edit_file envC7w).1 = "========== Opened recent file: " ++ "x.py") :=
  ⟨⟨by decide, by decide, by decide, by decide⟩,
   ⟨(recent_shortcut_bypasses_service envC7w "/proj" (by decide) (by decide)).1,
    (recent_shortcut_bypasses_service envC7w "/proj" (by decide) (by decide)).2.2
      1 "x.py" (by decide) (by decide)⟩⟩

/-- A predicate true on echoes holds on every menu event. -/
theorem echoMenu_all_true (P : Event → Bool) (hP : ∀ s, P (Event.echoed s) = true)
    (i : Nat) (ms : List Candidate) : (echoMenu i ms).1.all P = true := by
  rw [List.all_eq_true]
  intro x hx
  rcases echoMenu_echoed ms i x hx with ⟨s, rfl⟩
  exact hP s

/-- The resolution stage: its cache writes and editor launches come exactly
as adjacent (cache `p`, open `p`) pairs, and it never runs `os.system`. -/
theorem resolveStage_pairs (pr choice : String) (ms : List Candidate) :
    isPaired ((resolveStage pr choice ms).1.filter
        (fun e => isCacheEvent e || isEditorEvent e)) = true
    ∧ (resolveStage pr choice ms).1.all (fun e => !isRanEvent e) = true := by
  cases ms with
  | nil => exact ⟨rfl, rfl⟩
  | cons top rest =>
    cases hg : pyGtFloat top.confidence_score (mkRat 9 10) with
    | error u => simp [resolveStage, hg, isPaired]
    | ok b =>
      cases b with
      | true =>
        cases hf : top.file_path with
        | num q => simp [resolveStage, hg, hf, isPaired]
        | null => simp [resolveStage, hg, hf, isPaired]
        | str rel =>
          constructor <;>
            simp [resolveStage, hg, hf, isPaired, isCacheEvent, isEditorEvent, isRanEvent]
      | false =>
        simp only [resolveStage, hg, List.take_succ_cons]
        cases hm : (echoMenu 0 (top :: List.take 4 rest)).2 with
        | error u =>
          constructor <;>
            simp [isPaired, List.filter_append, echoMenu_filter_cache_editor,
              echoMenu_all_true (fun e => !isRanEvent e) (fun s => rfl)]
        | ok u =>
          cases hi : pyInt choice with
          | error u2 =>
            constructor <;>
              simp [isPaired, List.filter_append, echoMenu_filter_cache_editor,
                echoMenu_all_true (fun e => !isRanEvent e) (fun s => rfl)]
          | ok n =>
            cases hx : pyIndex (top :: rest) (n - 1) with
            | error u3 =>
              constructor <;>
                simp [hx, isPaired, List.filter_append, echoMenu_filter_cache_editor,
                  echoMenu_all_true (fun e => !isRanEvent e) (fun s => rfl)]
            | ok sel =>
              cases hsf : sel.file_path with
              | num q2 =>
                constructor <;>
                  simp [hx, hsf, isPaired, List.filter_append, echoMenu_filter_cache_editor,
                    echoMenu_all_true (fun e => !isRanEvent e) (fun s => rfl)]
              | null =>
                constructor <;>
                  simp [hx, hsf, isPaired, List.filter_append, echoMenu_filter_cache_editor,
                    echoMenu_all_true (fun e => !isRanEvent e) (fun s => rfl)]
              | str rel =>
                constructor <;>
                  simp [hx, hsf, isPaired, List.filter_append, echoMenu_filter_cache_editor,
                    echoMenu_all_true (fun e => !isRanEvent e) (fun s => rfl)]

/-- C8 counterexample run: the recent-files shortcut with cache `["x.py"]`
and choice `"1"` successfully opens a file (via `code --goto`) yet writes
nothing to the recent-files cache, so a cache entry is NOT created on every
successful open. -/
theorem recent_open_without_cache_write :
    (edit_file envC8x).2.any isLaunchEvent = true
    ∧ (edit_file envC8x).2.any isCacheEvent = false
    ∧ (edit_file envC8x).1 = "========== Opened recent file: x.py" := by
  decide

/-- C8 as amended: in the resolution workflow (description without
`"recent"`) every `open_in_editor` launch is immediately preceded — among
cache/editor side effects — by a cache write of the same path, and every
cache write is immediately followed by its launch, with no `os.system`
launches at all; the recent-files shortcut (description with `"recent"`),
by contrast, never writes the cache even when it launches the editor. -/
theorem cache_write_pairs_editor_launch (env : Env) :
    (containsRecent env.fileDescription = false →
      isPaired (((edit_file env).2).filter (fun e => isCacheEvent e || isEditorEvent e)) = true
      ∧ (edit_file env).2.all (fun e => !isRanEvent e) = true)
    ∧ (containsRecent env.fileDescription = true →
      (edit_file env).2.all (fun e => !isCacheEvent e) = true) := by
  cases hws : workspaceStage env.currentWorkspace env.workspaces env.defaultRoot with
  | notFound w =>
    rw [edit_file_wsNotFound_eq env w hws]
    constructor
    · intro _
      exact ⟨rfl, rfl⟩
    · intro _
      rfl
  | root pr =>
    constructor
    · intro hrec
      cases hsvc : env.service (env.getPrompt env.currentWorkspace
          (env.getCodebaseStructure pr) env.fileDescription) with
      | error u =>
        constructor <;>
          simp [edit_file, editFileCore, afterOptPrint, branchStage, mainBranch,
            hws, hrec, hsvc, isPaired]
      | ok resp =>
        cases hr : rankList ((resp.results?).getD []) with
        | error u =>
          constructor <;>
            simp [edit_file, editFileCore, afterOptPrint, branchStage, mainBranch,
              hws, hrec, hsvc, hr, isPaired]
        | ok ms =>
          have hp := resolveStage_pairs pr env.userChoice ms
          cases hrs : (resolveStage pr env.userChoice ms).2 with
          | error u =>
            constructor
            · simp [edit_file, editFileCore, afterOptPrint, branchStage, mainBranch,
                hws, hrec, hsvc, hr, hrs, isPaired, List.filter_append, hp.1]
            · simp [edit_file, editFileCore, afterOptPrint, branchStage, mainBranch,
                hws, hrec, hsvc, hr, hrs, List.all_append, hp.2]
          | ok m =>
            constructor
            · simp [edit_file, editFileCore, afterOptPrint, branchStage, mainBranch,
                hws, hrec, hsvc, hr, hrs, isPaired, List.filter_append, hp.1]
            · simp [edit_file, editFileCore, afterOptPrint, branchStage, mainBranch,
                hws, hrec, hsvc, hr, hrs, List.all_append, hp.2]
    · intro hrec
      rw [edit_file_recent_eq env pr hws hrec]
      rw [List.all_eq_true]
      intro e he
      simp only [List.mem_append, List.mem_cons, List.not_mem_nil, or_false] at he
      rcases he with (rfl | rfl | rfl | rfl | rfl) | he
      · rfl
      · rfl
      · rfl
      · rfl
      · rfl
      · simp [(recentBranch_events env.recentFiles env.userChoice e he).2.1]

/-- C8 witness: the auto-open scenario satisfies the pairing property at a
concrete input. -/
theorem cache_write_pairs_editor_launch_witness :
    containsRecent envC8w.fileDescription = false
    ∧ (isPaired (((edit_file envC8w).2).filter
          (fun e => isCacheEvent e || isEditorEvent e)) = true
       ∧ (edit_file envC8w).2.all (fun e => !isRanEvent e) = true) :=
  ⟨by decide, (cache_write_pairs_editor_launch envC8w).1 (by decide)⟩

/-- C9 counterexample run: the `--workspace` option names `"ghost"`, which
is absent from the configuration, yet the workflow does NOT abort with a
not-found message: the option is overwritten by the current workspace
(`"main"`, which is configured) before the existence check, and the run
proceeds past workspace resolution. -/
theorem workspace_option_ignored_no_abort :
    (edit_file envC9x).1 = "========== No recent files found"
    ∧ (edit_file envC9x).1 ≠ "Current workspace 'ghost' not found"
    ∧ Event.printed ("========== Starting edit_file with: recent") ∈ (edit_file envC9x).2 := by
  decide

/-- C9 as amended: the not-found check applies to the CURRENT workspace
returned by `get_current_workspace()` (the `--workspace` option having been
overwritten at line 144): whenever the current workspace is a non-empty
name missing from the configuration, the run aborts with the user-facing
not-found message, calling no service, writing no cache, launching no
editor. -/
theorem current_workspace_not_found_aborts (env : Env) (w : String)
    (hcw : env.currentWorkspace = Option.some w) (hne : w ≠ "")
    (hlk : List.lookup w env.workspaces = Option.none) :
    (edit_file env).1 = "Current workspace '" ++ w ++ "' not found"
    ∧ (edit_file env).2.all
        (fun e => !(isServiceEvent e || isCacheEvent e || isLaunchEvent e)) = true := by
  have hws : workspaceStage env.currentWorkspace env.workspaces env.defaultRoot
      = WsOutcome.notFound w := by
    simp [workspaceStage, hcw, hne, hlk]
  rw [edit_file_wsNotFound_eq env w hws]
  exact ⟨rfl, rfl⟩

/-- C9 witness: current workspace `"gone"` with an empty configuration. -/
theorem current_workspace_not_found_aborts_witness :
    (envC9w.currentWorkspace = Option.some "gone"
     ∧ List.lookup "gone" envC9w.workspaces = Option.none)
    ∧ ((edit_file envC9w).1 = "Current workspace '" ++ "gone" ++ "' not found"
       ∧ (edit_file envC9w).2.all
           (fun e => !(isServiceEvent e || isCacheEvent e || isLaunchEvent e)) = true) :=
  ⟨⟨rfl, rfl⟩, current_workspace_not_found_aborts envC9w "gone" rfl (by decide) rfl⟩

/-- C10 counterexample run: two invocations identical except for the
`--workspace` option value return the same message but produce DIFFERENT
observable stdout traces — the option is read once, by the debug print at
line 142, before being overwritten. -/
theorem workspace_option_changes_debug_trace :
    (edit_file envC10a).1 = (edit_file envC10b).1
    ∧ (edit_file envC10a).2 ≠ (edit_file envC10b).2 := by
  decide

/-- C10 as amended: the `--workspace` option influences exactly one
observable: the second stdout line (the line-142 debug print interpolating
the option). The returned message and every other trace event — in
particular all service calls, cache writes and editor launches — are
identical across any two invocations differing only in the option. -/
theorem workspace_option_only_debug_print (env : Env) (w : Option String) :
    (edit_file { env with workspaceOpt := w }).1 = (edit_file env).1
    ∧ ((edit_file { env with workspaceOpt := w }).2).length = ((edit_file env).2).length
    ∧ ((edit_file { env with workspaceOpt := w }).2).take 1 = ((edit_file env).2).take 1
    ∧ ((edit_file { env with workspaceOpt := w }).2).drop 2 = ((edit_file env).2).drop 2
    ∧ ((edit_file { env with workspaceOpt := w }).2).get? 1
        = Option.some (Event.printed
            ("DEBUG: Getting workspace config for '" ++ pyShowOpt w ++ "'")) := by
  have hA : afterOptPrint { env with workspaceOpt := w } = afterOptPrint env := rfl
  rcases hp : afterOptPrint env with ⟨evs, r⟩
  rw [hp] at hA
  cases r with
  | ok m =>
    constructor
    · simp [edit_file, editFileCore, hp, hA]
    · constructor
      · simp [edit_file, editFileCore, hp, hA]
      · constructor
        · simp [edit_file, editFileCore, hp, hA]
        · constructor
          · simp [edit_file, editFileCore, hp, hA]
          · simp [edit_file, editFileCore, hp, hA]
  | error u =>
    constructor
    · simp [edit_file, editFileCore, hp, hA]
    · constructor
      · simp [edit_file, editFileCore, hp, hA]
      · constructor
        · simp [edit_file, editFileCore, hp, hA]
        · constructor
          · simp [edit_file, editFileCore, hp, hA]
          · simp [edit_file, editFileCore, hp, hA]

/-- Sanity checks of the Python primitive models on concrete inputs. -/
theorem model_sanity_checks :
    pyInt " 12 " = Except.ok 12
    ∧ pyInt "-3" = Except.ok (-3)
    ∧ pyInt "1_0" = Except.ok 10
    ∧ pyInt "1__0" = Except.error ()
    ∧ pyInt "x" = Except.error ()
    ∧ pyIndex ["a", "b"] (-1) = Except.ok "b"
    ∧ pyIndex ["a", "b"] (-3) = Except.error ()
    ∧ osPathJoin "/r" "a.py" = "/r/a.py"
    ∧ rankList [⟨Option.none, Option.none, Option.none⟩]
        = Except.ok [⟨PyVal.str "", PyVal.num (mkRat 4 5), PyVal.str "unknown"⟩] := by
  decide
